import Mathlib

/-!
Verification of the Reseller-Solutions core: the financial calculator
(`calculateDeviceFinancials` in `src/components/file-upload.tsx`), the PDF
layout writer and Eigenbeleg generator (`src/lib/pdf/eigenbeleg.ts`), the
Eigenbeleg route handler, and the Excel export accumulator
(`src/app/(protected)/devices/[id]/page.tsx`).

JavaScript `number` arithmetic is modelled exactly over `ℚ`; absent fields
(`undefined` / `null`) are modelled as `Option.none`.  JavaScript's falsy-or
`a || b` on numbers (where `0`, `null`, `undefined` are falsy) and on strings
(where `""`, `null`, `undefined` are falsy) is modelled by `jsOrNum` /
`jsOrStr`; the nullish coalescing `a ?? b` is `Option.getD` / `Option.or`.
-/

/-- JavaScript `a || k` for an optional number: `a` is kept when present and
non-zero (zero is falsy), otherwise the fallback `k` is used. -/
def jsOrNum (a : Option ℚ) (k : ℚ) : ℚ :=
  match a with
  | some x => if x = 0 then k else x
  | none => k

/-- JavaScript `a || k` for an optional string: `a` is kept when present and
non-empty (the empty string is falsy), otherwise the fallback `k` is used. -/
def jsOrStr (a : Option String) (k : String) : String :=
  match a with
  | some s => if s = "" then k else s
  | none => k

/-- JavaScript truthiness of an optional string (`if (x)`): present and
non-empty. -/
def jsTruthyStr (a : Option String) : Bool :=
  match a with
  | some s => !(s == "")
  | none => false

/-- JavaScript truthiness of an optional boolean (`x ? … : …`): present and
`true`. -/
def jsTruthyBool (a : Option Bool) : Bool := a.getD false

/-- A device record as the calculator and the export see it: both the Prisma
(camelCase) and the Supabase (snake_case) field names may be present.  All
monetary fields are optional numbers; fields irrelevant to the verified
components are omitted. -/
structure Device where
  id : String := ""
  status : String := ""
  purchasePrice : Option ℚ := none
  purchase_price : Option ℚ := none
  repairCost : Option ℚ := none
  repair_cost : Option ℚ := none
  shippingBuy : Option ℚ := none
  shipping_buy : Option ℚ := none
  shippingSell : Option ℚ := none
  shipping_sell : Option ℚ := none
  salesFees : Option ℚ := none
  sales_fees : Option ℚ := none
  salePrice : Option ℚ := none
  sale_price : Option ℚ := none
  isDiffTax : Option Bool := none
  is_diff_tax : Option Bool := none
  purchase_date : Option String := none
  sale_date : Option String := none
deriving DecidableEq, Repr

/-- The result record of `calculateDeviceFinancials`. -/
structure CalculationResult where
  totalCosts : ℚ
  taxableMargin : ℚ
  actualProfit : ℚ
  grossProfit : ℚ
  vat : ℚ
  netProfit : ℚ
  isFinal : Bool
deriving DecidableEq, Repr

/-- Resolved purchase price: `device.purchasePrice || device.purchase_price || 0`. -/
def Device.purchasePriceR (d : Device) : ℚ := jsOrNum d.purchasePrice (jsOrNum d.purchase_price 0)

/-- Resolved repair cost: `device.repairCost || device.repair_cost || 0`. -/
def Device.repairCostR (d : Device) : ℚ := jsOrNum d.repairCost (jsOrNum d.repair_cost 0)

/-- Resolved inbound shipping: `device.shippingBuy || device.shipping_buy || 0`. -/
def Device.shippingBuyR (d : Device) : ℚ := jsOrNum d.shippingBuy (jsOrNum d.shipping_buy 0)

/-- Resolved outbound shipping: `device.shippingSell || device.shipping_sell || 0`. -/
def Device.shippingSellR (d : Device) : ℚ := jsOrNum d.shippingSell (jsOrNum d.shipping_sell 0)

/-- Resolved sales fees: `device.salesFees || device.sales_fees || 0`. -/
def Device.salesFeesR (d : Device) : ℚ := jsOrNum d.salesFees (jsOrNum d.sales_fees 0)

/-- Resolved sale price: `device.salePrice || device.sale_price || 0`. -/
def Device.salePriceR (d : Device) : ℚ := jsOrNum d.salePrice (jsOrNum d.sale_price 0)

/-- Resolved taxation flag: `device.isDiffTax ?? device.is_diff_tax ?? true`. -/
def Device.isDiffTaxR (d : Device) : Bool := (d.isDiffTax.or d.is_diff_tax).getD true

/-- Embedding of `calculateDeviceFinancials` from `src/components/file-upload.tsx`. -/
def calculateDeviceFinancials (device : Device) : CalculationResult :=
  let isSold := device.status = "SOLD"
  let purchasePrice := device.purchasePriceR
  let repairCost := device.repairCostR
  let shippingBuy := device.shippingBuyR
  let shippingSell := device.shippingSellR
  let salesFees := device.salesFeesR
  let salePrice := device.salePriceR
  let isDiffTax := device.isDiffTaxR
  let totalCosts := purchasePrice + repairCost + shippingBuy + shippingSell + salesFees
  let taxableMargin := salePrice - purchasePrice
  let actualProfit := salePrice - totalCosts
  let grossProfit := actualProfit
  let vat : ℚ :=
    if isSold then
      if isDiffTax then
        if 0 < taxableMargin then taxableMargin * (19 / 119) else 0
      else
        salePrice * (19 / 119)
    else 0
  let netProfit := actualProfit - vat
  { totalCosts := totalCosts
    taxableMargin := taxableMargin
    actualProfit := actualProfit
    grossProfit := grossProfit
    vat := vat
    netProfit := netProfit
    isFinal := isSold }

/-!
German number formatting, modelling
`n.toLocaleString('de-DE', { minimumFractionDigits: 2, maximumFractionDigits: 2 })`:
round to cents (ECMA-402 default rounding mode `halfExpand`, i.e. half away
from zero), group the integer part with `.` every three digits, and use `,`
as the decimal separator.
-/

/-- Round a rational to a signed number of cents, half away from zero:
`sign q * ⌊100·|q| + 1/2⌋`, written on the reduced numerator `a` and
denominator `b` of `|q|` as `(200·a + b) / (2·b)` in natural division. -/
def roundCentsHalfAway (q : ℚ) : ℤ :=
  let c : ℕ := (200 * q.num.natAbs + q.den) / (2 * q.den)
  if q.num < 0 then -(c : ℤ) else (c : ℤ)

/-- Insert a `.` after every third digit of a reversed digit list. -/
def groupRev : List Char → List Char
  | a :: b :: c :: d :: rest => a :: b :: c :: Char.ofNat 46 :: groupRev (d :: rest)
  | l => l

/-- Group the decimal representation of a natural number with `.` thousands
separators, German style. -/
def groupThousands (n : ℕ) : String :=
  String.mk ((groupRev (toString n).data.reverse).reverse)

/-- Render a natural number below 100 with exactly two digits. -/
def twoDigits (n : ℕ) : String :=
  if n < 10 then "0" ++ toString n else toString n

/-- German two-decimal number formatting of a rational. -/
def formatDe2 (q : ℚ) : String :=
  let c := roundCentsHalfAway q
  let sign := if c < 0 then "-" else ""
  sign ++ groupThousands (c.natAbs / 100) ++ "," ++ twoDigits (c.natAbs % 100)

/-!
The PDF layout writer (`PdfWriter` in `src/lib/pdf/eigenbeleg.ts`).  The jsPDF
canvas is modelled as a list of pages, each page a list of drawn items; the
writer state carries the vertical cursor `y`, the items of the page being
drawn, the finished pages, and the footer text.  `doc.splitTextToSize` (text
wrapping, an external jsPDF service) is modelled as an arbitrary function
`wrap : String → List String` passed in by the caller.
-/

/-- Layout constants from `src/lib/pdf/eigenbeleg.ts`. -/
def MARGIN_LEFT : ℚ := 25

def MARGIN_RIGHT : ℚ := 25

def LABEL_X : ℚ := MARGIN_LEFT

def VALUE_X : ℚ := 85

def PAGE_BOTTOM : ℚ := 270

def FOOTER_Y : ℚ := 280

def LINE_HEIGHT : ℚ := 5

/-- Width of the default jsPDF A4 page in mm (`doc.internal.pageSize.getWidth()`). -/
def PAGE_WIDTH : ℚ := 210

/-- Top margin at which the cursor starts and restarts after a page break. -/
def TOP_MARGIN : ℚ := 25

/-- An item drawn on a page: a text run at a position, a horizontal rule, or
the page footer (which the source draws as size-8 text at
`(LABEL_X, FOOTER_Y)`). -/
inductive Item where
  | text (s : String) (x y : ℚ) (fontSize : ℚ) (bold : Bool)
  | rule (x1 y1 x2 y2 : ℚ)
  | footer (s : String)
deriving DecidableEq, Repr

/-- Whether an item is the page footer. -/
def Item.isFooter : Item → Bool
  | .footer _ => true
  | _ => false

/-- State of a `PdfWriter`: the cursor `y`, the current page's items, the
already finished pages (`doc.addPage` finishes a page), and the footer text. -/
structure WriterState where
  y : ℚ
  curPage : List Item
  donePages : List (List Item)
  footerText : String
deriving DecidableEq, Repr

namespace PdfWriter

/-- The fresh writer produced by the `PdfWriter` constructor: cursor at the
top margin, one empty page, no footer text yet. -/
def new : WriterState := { y := 25, curPage := [], donePages := [], footerText := "" }

/-- `setFooter` stores the footer text. -/
def setFooter (t : String) (s : WriterState) : WriterState := { s with footerText := t }

/-- Draw one item on the current page. -/
def draw (it : Item) (s : WriterState) : WriterState := { s with curPage := s.curPage ++ [it] }

/-- `advance`: move the cursor down. -/
def advance (a : ℚ) (s : WriterState) : WriterState := { s with y := s.y + a }

/-- `addFooter`: draw the footer on the current page, unless the footer text
is empty. -/
def addFooter (s : WriterState) : WriterState :=
  if s.footerText = "" then s else draw (Item.footer s.footerText) s

/-- `ensureSpace(needed)`: when the cursor plus `needed` would cross
`PAGE_BOTTOM`, draw the footer, finish the page (`doc.addPage`) and reset the
cursor to the top margin. -/
def ensureSpace (needed : ℚ) (s : WriterState) : WriterState :=
  if PAGE_BOTTOM < s.y + needed then
    { y := 25, curPage := [],
      donePages := (addFooter s).donePages ++ [(addFooter s).curPage],
      footerText := (addFooter s).footerText }
  else s

/-- `separator`: ensure 10 units of space, draw a horizontal rule, advance. -/
def separator (s : WriterState) : WriterState :=
  let s1 := ensureSpace 10 s
  let s2 := draw (Item.rule LABEL_X s1.y (PAGE_WIDTH - MARGIN_RIGHT) s1.y) s1
  advance 10 s2

/-- Options of `labelValue` (`valueBold`, `valueFontSize`, `labelFontSize`),
each optional as in the source. -/
structure LabelValueOpts where
  valueBold : Option Bool := none
  valueFontSize : Option ℚ := none
  labelFontSize : Option ℚ := none
deriving DecidableEq, Repr

/-- The loop body of `labelValue` for the wrapped lines after the first: each
iteration re-checks space (`ensureSpace lineH`), draws the line at `VALUE_X`,
and advances unless it is the last line. -/
def drawRestLines (lineH fontSize : ℚ) (bold : Bool) : List String → WriterState → WriterState
  | [], s => s
  | l :: rest, s =>
    let s1 := ensureSpace lineH s
    let s2 := draw (Item.text l VALUE_X s1.y fontSize bold) s1
    let s3 := if rest.isEmpty then s2 else advance lineH s2
    drawRestLines lineH fontSize bold rest s3

/-- `labelValue` on pre-wrapped value lines: reserve space for at least the
first line plus the label, draw the label at `LABEL_X` and the first value
line at `VALUE_X` on the same cursor line, then draw the remaining lines with
per-line space checks, and finally advance by `lineH + 2`. -/
def labelValueLines (label : String) (lines : List String) (opts : LabelValueOpts)
    (s : WriterState) : WriterState :=
  let fontSize := jsOrNum opts.valueFontSize 10
  let labelFontSize := jsOrNum opts.labelFontSize 10
  let bold := jsTruthyBool opts.valueBold
  let lineH := fontSize * (2 / 5)
  let totalHeight := (lines.length : ℚ) * lineH
  let s1 := ensureSpace (min totalHeight (lineH + 2)) s
  let s2 := draw (Item.text label LABEL_X s1.y labelFontSize false) s1
  match lines with
  | [] => advance (lineH + 2) s2
  | l :: rest =>
    let s3 := draw (Item.text l VALUE_X s2.y fontSize bold) s2
    let s4 := if rest.isEmpty then s3 else advance lineH s3
    let s5 := drawRestLines lineH fontSize bold rest s4
    advance (lineH + 2) s5

/-- `labelValue` as in the source: the value string is wrapped by
`doc.splitTextToSize` (modelled by `wrap`) and the wrapped lines rendered. -/
def labelValue (wrap : String → List String) (label value : String)
    (opts : LabelValueOpts) (s : WriterState) : WriterState :=
  labelValueLines label (wrap value) opts s

/-- The loop of `labelBlock`: each value line is space-checked, drawn at
`VALUE_X`, and followed by an advance of `LINE_HEIGHT`. -/
def blockLines : List String → WriterState → WriterState
  | [], s => s
  | l :: rest, s =>
    let s1 := ensureSpace LINE_HEIGHT s
    let s2 := draw (Item.text l VALUE_X s1.y 10 false) s1
    let s3 := advance LINE_HEIGHT s2
    blockLines rest s3

/-- `labelBlock`: reserve `LINE_HEIGHT + 2`, draw the label, render the
caller-pre-wrapped lines, then advance by 3. -/
def labelBlock (label : String) (values : List String) (s : WriterState) : WriterState :=
  let s1 := ensureSpace (LINE_HEIGHT + 2) s
  let s2 := draw (Item.text label LABEL_X s1.y 10 false) s1
  let s3 := blockLines values s2
  advance 3 s3

end PdfWriter

/-- The pages of the document as serialized at the end: the finished pages
followed by the page still being drawn. -/
def pages (s : WriterState) : List (List Item) := s.donePages ++ [s.curPage]

/-- Number of footer items on a page. -/
def footerCount (p : List Item) : ℕ := (p.filter Item.isFooter).length

/-- The drawing operations issued against a `PdfWriter` by `generateEigenbeleg`
(label/value rows, label blocks, separators, cursor advances, space checks,
and the direct `doc.text` / `doc.line` calls made at the current cursor). -/
inductive Op where
  | labelValue (label value : String) (opts : PdfWriter.LabelValueOpts)
  | labelBlock (label : String) (values : List String)
  | separator
  | advance (a : ℚ)
  | ensureSpace (n : ℚ)
  | rawText (t : String) (x fontSize : ℚ) (bold : Bool)
  | rawLine (x1 x2 : ℚ)

/-- Run one drawing operation; `wrap` models `doc.splitTextToSize`. -/
def runOp (wrap : String → List String) : Op → WriterState → WriterState
  | .labelValue label value opts => PdfWriter.labelValue wrap label value opts
  | .labelBlock label values => PdfWriter.labelBlock label values
  | .separator => PdfWriter.separator
  | .advance a => PdfWriter.advance a
  | .ensureSpace n => PdfWriter.ensureSpace n
  | .rawText t x fs b => fun s => PdfWriter.draw (Item.text t x s.y fs b) s
  | .rawLine x1 x2 => fun s => PdfWriter.draw (Item.rule x1 s.y x2 s.y) s

/-- Run a sequence of drawing operations. -/
def runOps (wrap : String → List String) (ops : List Op) (s : WriterState) : WriterState :=
  ops.foldl (fun st op => runOp wrap op st) s

/-- The `CompanyProfile` interface of `src/lib/pdf/eigenbeleg.ts`. -/
structure CompanyProfile where
  company_name : String
  owner_name : String
  street : String
  house_number : String
  postal_code : String
  city : String
  country : String
  vat_id : Option String := none
  tax_id : Option String := none
  email : String
  phone : Option String := none
  logo_url : Option String := none
deriving DecidableEq, Repr

/-- The `Device` interface of `src/lib/pdf/eigenbeleg.ts` (distinct from the
calculator's device record; here the purchase price is a required number). -/
structure PdfDevice where
  id : String
  model : String
  storage : String
  color : String
  seller_name : Option String := none
  purchase_price : ℚ
  purchase_date : String
deriving DecidableEq, Repr

/-- The `EigenbelegOptions` interface: recipient name required, reason optional. -/
structure EigenbelegOptions where
  recipientName : String
  reason : Option String := none
deriving DecidableEq, Repr

/-- Outcome of the `fetch(logoUrl)` call inside `loadLogoAsBase64`: the network
request may throw, return a non-OK response, or succeed with a content type
header and body bytes (carried here in base64 form). -/
inductive FetchResult where
  | netError
  | notOk
  | ok (contentType : Option String) (base64Data : String)
deriving DecidableEq, Repr

/-- Outcome of the `doc.addImage` call, which may throw on undecodable data. -/
inductive AddImageResult where
  | ok
  | failed
deriving DecidableEq, Repr

/-- Embedding of `loadLogoAsBase64`: any fetch failure or non-OK response
yields `none` (the `try`/`catch` swallows thrown errors); on success the data
URL is built with the content type defaulting to `image/png`. -/
def loadLogoAsBase64 : FetchResult → Option String
  | .netError => none
  | .notOk => none
  | .ok ct data => some ("data:" ++ jsOrStr ct "image/png" ++ ";base64," ++ data)

/-- The footer string of the generated document: the company email, joined
with the phone number when present and non-empty. -/
def footerStr (cp : CompanyProfile) : String :=
  String.intercalate " • " ([cp.email] ++ if jsTruthyStr cp.phone then [cp.phone.getD ""] else [])

/-- The default reason text used when the caller supplies none. -/
def defaultReason : String := "Kein externer Beleg vorhanden"

/-- The fixed document assembly sequence of `generateEigenbeleg`, as drawing
operations: title and receipt number, date, counterparty, description with
device-id sub-line, amount, reason (defaulted when absent), issuer address
block, creation date, optional tax identifiers, signature token and signature
line.  The locale date string and the generated GUID are environment-dependent
(`toLocaleDateString`, `crypto.randomUUID`) and are passed in. -/
def eigenbelegOps (device : PdfDevice) (cp : CompanyProfile) (options : EigenbelegOptions)
    (dateStr guid : String) : List Op :=
  [ .rawText "Eigenbeleg" LABEL_X 22 true,
    .advance 8,
    .rawText ("Eigenbeleg-Nummer " ++ device.id) LABEL_X 10 false,
    .advance 18,
    .labelValue "Belegdatum" dateStr ⟨some true, none, none⟩,
    .labelValue "Gegenpartei" options.recipientName ⟨some true, none, none⟩,
    .labelValue "Beschreibung der Leistung"
      ("Ankauf " ++ device.model ++ " " ++ device.storage ++ " " ++ device.color)
      ⟨none, none, none⟩,
    .ensureSpace 5,
    .rawText ("Geräte-ID: " ++ device.id) VALUE_X 9 false,
    .advance 8,
    .labelValue "Betrag" (formatDe2 device.purchase_price ++ " €") ⟨some true, some 14, none⟩,
    .separator,
    .labelValue "Grund für Eigenbeleg" (jsOrStr options.reason defaultReason)
      ⟨some true, none, none⟩,
    .separator,
    .labelBlock "Erstellt durch"
      [cp.owner_name, cp.company_name, cp.street ++ " " ++ cp.house_number,
       cp.postal_code ++ " " ++ cp.city],
    .labelValue "Erstellt am" dateStr ⟨none, none, none⟩ ]
  ++ (if jsTruthyStr cp.tax_id then
        [.labelValue "Steuer-Nr." (cp.tax_id.getD "") ⟨none, none, none⟩] else [])
  ++ (if jsTruthyStr cp.vat_id then
        [.labelValue "USt-IdNr." (cp.vat_id.getD "") ⟨none, none, none⟩] else [])
  ++ [ .labelValue "Digitale Signatur (GUID)" guid ⟨none, some 9, none⟩,
       .advance 8,
       .ensureSpace 20,
       .rawLine LABEL_X (LABEL_X + 70),
       .advance 5,
       .rawText ("Inhaber " ++ cp.company_name) LABEL_X 9 false ]

/-- Embedding of `generateEigenbeleg`: set the footer, resolve the optional
logo (skipping it on any fetch or decode failure), run the fixed assembly
sequence, draw the footer on the last page, and return the serialized
document.  The result is the final writer state plus whether the logo was
drawn; it is an `Except` to make explicit that no error is ever produced. -/
def generateEigenbeleg (device : PdfDevice) (cp : CompanyProfile)
    (options : EigenbelegOptions) (wrap : String → List String)
    (fetch : FetchResult) (addImage : AddImageResult) (dateStr guid : String) :
    Except String (WriterState × Bool) :=
  let w0 := PdfWriter.setFooter (footerStr cp) PdfWriter.new
  let logoShown :=
    if jsTruthyStr cp.logo_url then
      match loadLogoAsBase64 fetch with
      | some _ => (match addImage with | .ok => true | .failed => false)
      | none => false
    else false
  let wF := PdfWriter.addFooter (runOps wrap (eigenbelegOps device cp options dateStr guid) w0)
  Except.ok (wF, logoShown)

/-- Drop leading whitespace characters from a character list. -/
def dropLeadingWs : List Char → List Char
  | [] => []
  | c :: cs => if c.isWhitespace then dropLeadingWs cs else c :: cs

/-- JavaScript `String.prototype.trim`: strip whitespace from both ends. -/
def jsTrim (s : String) : String :=
  String.mk ((dropLeadingWs (dropLeadingWs s.data).reverse).reverse)

/-- The reason value the Eigenbeleg route handler passes to
`generateEigenbeleg`: `(body.reason || '').trim()`, with an empty trimmed
string passed as `undefined`. -/
def routeReason (bodyReason : Option String) : Option String :=
  let r := jsTrim (jsOrStr bodyReason "")
  if r = "" then none else some r

/-!
The Excel export (`exportDevicesToExcel` in
`src/app/(protected)/devices/[id]/page.tsx`): one spreadsheet row per fetched
device, plus totals accumulated only over sold devices with a positive sale
price.  Date formatting (`format(new Date(…), 'dd.MM.yyyy')`, an external
library call) is modelled by the parameter `fmtDate`.
-/

/-- One per-device spreadsheet row.  Cells that the source renders as the
empty string `''` instead of a number are modelled as `Option ℚ` with `none`
for `''`. -/
structure ExportRow where
  geraeteId : String
  einkaufsdatum : String
  verkaufsdatum : String
  besteuerungsart : String
  diffMark : String
  regelMark : String
  einkaufspreis : ℚ
  reparaturkosten : ℚ
  versandkosten : ℚ
  sonstigeKosten : ℚ
  gesamtkosten : ℚ
  verkaufspreis : Option ℚ
  steuerbetrag : Option ℚ
  gewinnVorSteuern : Option ℚ
  gewinnNachSteuern : Option ℚ
deriving DecidableEq, Repr

/-- The six accumulated totals of the export. -/
structure ExportTotals where
  purchasePrice : ℚ
  repairCost : ℚ
  shippingCost : ℚ
  otherCosts : ℚ
  salePrice : ℚ
  tax : ℚ
deriving DecidableEq, Repr

/-- The all-zero totals the export starts from. -/
def ExportTotals.zero : ExportTotals := ⟨0, 0, 0, 0, 0, 0⟩

/-- Componentwise addition of totals. -/
def ExportTotals.add (a b : ExportTotals) : ExportTotals :=
  ⟨a.purchasePrice + b.purchasePrice, a.repairCost + b.repairCost,
   a.shippingCost + b.shippingCost, a.otherCosts + b.otherCosts,
   a.salePrice + b.salePrice, a.tax + b.tax⟩

/-- The row built for one device (independent of the running totals). -/
def exportRow (fmtDate : String → String) (d : Device) : ExportRow :=
  let fin := calculateDeviceFinancials d
  let purchasePrice := jsOrNum d.purchase_price 0
  let repairCost := jsOrNum d.repair_cost 0
  let shippingCost := jsOrNum d.shipping_buy 0 + jsOrNum d.shipping_sell 0
  let otherCosts := jsOrNum d.sales_fees 0
  let totalCosts := purchasePrice + repairCost + shippingCost + otherCosts
  let salePrice := jsOrNum d.sale_price 0
  let tax := fin.vat
  { geraeteId := d.id
    einkaufsdatum := if jsTruthyStr d.purchase_date then fmtDate (d.purchase_date.getD "") else ""
    verkaufsdatum := if jsTruthyStr d.sale_date then fmtDate (d.sale_date.getD "") else ""
    besteuerungsart := if jsTruthyBool d.is_diff_tax then "Differenzbesteuerung" else "Regelbesteuerung"
    diffMark := if jsTruthyBool d.is_diff_tax then "✓" else ""
    regelMark := if jsTruthyBool d.is_diff_tax then "" else "✓"
    einkaufspreis := purchasePrice
    reparaturkosten := repairCost
    versandkosten := shippingCost
    sonstigeKosten := otherCosts
    gesamtkosten := totalCosts
    verkaufspreis := if 0 < salePrice then some salePrice else none
    steuerbetrag := if 0 < tax then some tax else none
    gewinnVorSteuern := if d.status = "SOLD" then some fin.actualProfit else none
    gewinnNachSteuern := if d.status = "SOLD" then some fin.netProfit else none }

/-- The accumulation guard: `device.status === 'SOLD' && salePrice > 0`. -/
def exportGate (d : Device) : Bool :=
  d.status == "SOLD" && decide (0 < jsOrNum d.sale_price 0)

/-- The contribution a gated device makes to the accumulated totals. -/
def exportContrib (d : Device) : ExportTotals :=
  ⟨jsOrNum d.purchase_price 0, jsOrNum d.repair_cost 0,
   jsOrNum d.shipping_buy 0 + jsOrNum d.shipping_sell 0, jsOrNum d.sales_fees 0,
   jsOrNum d.sale_price 0, (calculateDeviceFinancials d).vat⟩

/-- The `devices.map(…)` pass of the export, which builds every row and
accumulates the totals for gated devices along the way. -/
def exportFold (fmtDate : String → String) :
    List Device → ExportTotals → List ExportRow × ExportTotals
  | [], acc => ([], acc)
  | d :: rest, acc =>
    let acc' := if exportGate d then acc.add (exportContrib d) else acc
    let (rows, accF) := exportFold fmtDate rest acc'
    (exportRow fmtDate d :: rows, accF)

/-- The derived profit totals computed after the accumulation pass. -/
structure DerivedTotals where
  allCosts : ℚ
  profitBeforeTax : ℚ
  profitAfterTax : ℚ
deriving DecidableEq, Repr

/-- Embedding of `exportDevicesToExcel` (the spreadsheet-construction part):
an empty device list is rejected; otherwise every device becomes a row, the
totals are accumulated over gated devices, and the derived profit totals are
computed from the accumulated ones. -/
def exportDevicesToExcel (fmtDate : String → String) (devices : List Device) :
    Except String (List ExportRow × ExportTotals × DerivedTotals) :=
  if devices.length = 0 then Except.error "Keine Geräte zum Exportieren gefunden"
  else
    let (rows, t) := exportFold fmtDate devices ExportTotals.zero
    let totalAllCosts := t.purchasePrice + t.repairCost + t.shippingCost + t.otherCosts
    let totalProfitBeforeTax := t.salePrice - totalAllCosts
    let totalProfitAfterTax := totalProfitBeforeTax - t.tax
    Except.ok (rows, t, ⟨totalAllCosts, totalProfitBeforeTax, totalProfitAfterTax⟩)

/-- Sum of the contributions of the devices in a list. -/
def sumContribs (ds : List Device) : ExportTotals :=
  ds.foldr (fun d acc => (exportContrib d).add acc) ExportTotals.zero

/-!
Calculator lemmas and claim theorems.
-/

/-- An optional monetary field is non-negative when present. -/
def NonnegOpt (o : Option ℚ) : Prop := ∀ x ∈ o, 0 ≤ x

/-- Replace an absent monetary field by an explicit zero; keep present values. -/
def fillNum (o : Option ℚ) : Option ℚ :=
  match o with
  | none => some 0
  | some x => some x

/-- The device with every absent monetary field made an explicit `0` and, when
the taxation flag is absent in both namings, an explicit `true`
(differential) flag.  The claim C6 asserts the calculator treats a device and
its explicitly defaulted form identically. -/
def Device.withExplicitDefaults (d : Device) : Device :=
  { d with
    purchasePrice := fillNum d.purchasePrice, purchase_price := fillNum d.purchase_price,
    repairCost := fillNum d.repairCost, repair_cost := fillNum d.repair_cost,
    shippingBuy := fillNum d.shippingBuy, shipping_buy := fillNum d.shipping_buy,
    shippingSell := fillNum d.shippingSell, shipping_sell := fillNum d.shipping_sell,
    salesFees := fillNum d.salesFees, sales_fees := fillNum d.sales_fees,
    salePrice := fillNum d.salePrice, sale_price := fillNum d.sale_price,
    isDiffTax :=
      if d.isDiffTax = none ∧ d.is_diff_tax = none then some true else d.isDiffTax }

/-- The derived profit totals the export computes from the accumulated ones. -/
def derivedOf (t : ExportTotals) : DerivedTotals :=
  ⟨t.purchasePrice + t.repairCost + t.shippingCost + t.otherCosts,
   t.salePrice - (t.purchasePrice + t.repairCost + t.shippingCost + t.otherCosts),
   t.salePrice - (t.purchasePrice + t.repairCost + t.shippingCost + t.otherCosts) - t.tax⟩

/-- The invariant carried through every drawing operation: each finished page
has exactly one footer, the page being drawn has none, and the footer text is
non-empty. -/
def FootInv (s : WriterState) : Prop :=
  (∀ p ∈ s.donePages, footerCount p = 1) ∧ footerCount s.curPage = 0 ∧ s.footerText ≠ ""

/-- Every page of `s` is contained in some page of `t`. -/
def PageMono (s t : WriterState) : Prop := ∀ p ∈ pages s, ∃ q ∈ pages t, p ⊆ q

/-- A sold, differentially taxed device with sale price 1190 and purchase
price 1000 (the worked example of the spec's testable properties). -/
def deviceSoldDiff : Device :=
  { status := "SOLD", purchase_price := some 1000, sale_price := some 1190 }

/-- A stock device with purchase price 100, repair cost 20 and shipping 5+5. -/
def deviceStock : Device :=
  { status := "STOCK", purchase_price := some 100, repair_cost := some 20,
    shipping_buy := some 5, shipping_sell := some 5 }

/-- A device carrying an explicit camelCase zero purchase price next to a
non-zero snake_case one. -/
def deviceZeroCamel : Device :=
  { status := "STOCK", purchasePrice := some 0, purchase_price := some 100 }

/-- A sold device whose camelCase taxation flag is explicitly `false` while
the snake_case one is `true`. -/
def deviceFlagFalse : Device :=
  { status := "SOLD", isDiffTax := some false, is_diff_tax := some true,
    sale_price := some 119 }

/-- A concrete device for the end-to-end Eigenbeleg example: purchase price
250. -/
def pdfDeviceEx : PdfDevice :=
  { id := "D1", model := "iPhone 12", storage := "128GB", color := "Schwarz",
    purchase_price := 250, purchase_date := "2024-01-15" }

/-- A concrete company profile with no tax identifiers and no logo. -/
def companyProfileEx : CompanyProfile :=
  { company_name := "ACME GmbH", owner_name := "Max Mustermann", street := "Musterweg",
    house_number := "1", postal_code := "12345", city := "Berlin", country := "DE",
    email := "info@acme.example" }

theorem jsOrNum_nonneg {a : Option ℚ} {k : ℚ} (ha : NonnegOpt a) (hk : 0 ≤ k) :
    0 ≤ jsOrNum a k := by
  cases a with
  | none => simpa [jsOrNum] using hk
  | some x =>
    by_cases hx : x = 0 <;> simp [jsOrNum, hx, hk, ha x (by simp)]

theorem calc_totalCosts (d : Device) :
    (calculateDeviceFinancials d).totalCosts =
      d.purchasePriceR + d.repairCostR + d.shippingBuyR + d.shippingSellR + d.salesFeesR := rfl

theorem calc_taxableMargin (d : Device) :
    (calculateDeviceFinancials d).taxableMargin = d.salePriceR - d.purchasePriceR := rfl

theorem calc_vat (d : Device) :
    (calculateDeviceFinancials d).vat =
      if d.status = "SOLD" then
        if d.isDiffTaxR then
          if 0 < d.salePriceR - d.purchasePriceR
            then (d.salePriceR - d.purchasePriceR) * (19 / 119) else 0
        else d.salePriceR * (19 / 119)
      else 0 := rfl

/-- Claim C1: for every device record, `vat` is `0` when the status is not
`SOLD`; when sold under differential taxation it is `taxableMargin · 19/119`
for a positive margin and `0` for a non-positive one; when sold under standard
taxation it is `salePrice · 19/119` regardless of the margin's sign; and with
a non-negative (resolved) sale price, `vat` is never negative. -/
theorem vat_case_analysis (d : Device) (hs : 0 ≤ d.salePriceR) :
    (d.status ≠ "SOLD" → (calculateDeviceFinancials d).vat = 0)
    ∧ (d.status = "SOLD" → d.isDiffTaxR = true →
        0 < (calculateDeviceFinancials d).taxableMargin →
        (calculateDeviceFinancials d).vat =
          (calculateDeviceFinancials d).taxableMargin * (19 / 119))
    ∧ (d.status = "SOLD" → d.isDiffTaxR = true →
        (calculateDeviceFinancials d).taxableMargin ≤ 0 →
        (calculateDeviceFinancials d).vat = 0)
    ∧ (d.status = "SOLD" → d.isDiffTaxR = false →
        (calculateDeviceFinancials d).vat = d.salePriceR * (19 / 119))
    ∧ 0 ≤ (calculateDeviceFinancials d).vat := by
  rw [calc_vat, calc_taxableMargin]
  refine ⟨fun h => if_neg h, fun h hd hm => by rw [if_pos h, if_pos hd, if_pos hm],
    fun h hd hm => by rw [if_pos h, if_pos hd, if_neg (not_lt.mpr hm)],
    fun h hd => by rw [if_pos h, if_neg (by rw [hd]; exact Bool.false_ne_true)], ?_⟩
  split_ifs with h1 h2 h3
  · exact mul_nonneg h3.le (by norm_num)
  · exact le_rfl
  · exact mul_nonneg hs (by norm_num)
  · exact le_rfl

/-- Witness for the claim C1 theorem at `deviceSoldDiff`. -/
theorem vat_case_analysis_witness :
    0 ≤ deviceSoldDiff.salePriceR
    ∧ (calculateDeviceFinancials deviceSoldDiff).vat =
        (calculateDeviceFinancials deviceSoldDiff).taxableMargin * (19 / 119) := by
  have hs : 0 ≤ deviceSoldDiff.salePriceR := by
    norm_num [deviceSoldDiff, Device.salePriceR, jsOrNum]
  refine ⟨hs, (vat_case_analysis _ hs).2.1 rfl rfl ?_⟩
  rw [calc_taxableMargin]
  norm_num [deviceSoldDiff, Device.salePriceR, Device.purchasePriceR, jsOrNum]

/-- Claim C4: `totalCosts` is the sum of the five resolved cost fields (absent
fields resolving to 0), and for non-negative monetary inputs it dominates both
the purchase price and the repair cost. -/
theorem totalCosts_sum_and_monotone (d : Device)
    (h1 : NonnegOpt d.purchasePrice) (h2 : NonnegOpt d.purchase_price)
    (h3 : NonnegOpt d.repairCost) (h4 : NonnegOpt d.repair_cost)
    (h5 : NonnegOpt d.shippingBuy) (h6 : NonnegOpt d.shipping_buy)
    (h7 : NonnegOpt d.shippingSell) (h8 : NonnegOpt d.shipping_sell)
    (h9 : NonnegOpt d.salesFees) (h10 : NonnegOpt d.sales_fees) :
    (calculateDeviceFinancials d).totalCosts =
      d.purchasePriceR + d.repairCostR + d.shippingBuyR + d.shippingSellR + d.salesFeesR
    ∧ d.purchasePriceR ≤ (calculateDeviceFinancials d).totalCosts
    ∧ d.repairCostR ≤ (calculateDeviceFinancials d).totalCosts := by
  have hpp : 0 ≤ d.purchasePriceR := jsOrNum_nonneg h1 (jsOrNum_nonneg h2 le_rfl)
  have hrc : 0 ≤ d.repairCostR := jsOrNum_nonneg h3 (jsOrNum_nonneg h4 le_rfl)
  have hsb : 0 ≤ d.shippingBuyR := jsOrNum_nonneg h5 (jsOrNum_nonneg h6 le_rfl)
  have hss : 0 ≤ d.shippingSellR := jsOrNum_nonneg h7 (jsOrNum_nonneg h8 le_rfl)
  have hsf : 0 ≤ d.salesFeesR := jsOrNum_nonneg h9 (jsOrNum_nonneg h10 le_rfl)
  refine ⟨rfl, ?_, ?_⟩ <;> rw [calc_totalCosts] <;> linarith

theorem nonnegOpt_none : NonnegOpt none := by
  intro x hx
  simp at hx

theorem nonnegOpt_some {q : ℚ} (h : 0 ≤ q) : NonnegOpt (some q) := by
  intro x hx
  simp at hx
  rwa [← hx]

/-- Witness for the claim C4 theorem at `deviceStock`. -/
theorem totalCosts_sum_and_monotone_witness :
    deviceStock.purchasePriceR ≤ (calculateDeviceFinancials deviceStock).totalCosts :=
  (totalCosts_sum_and_monotone deviceStock
    nonnegOpt_none (nonnegOpt_some (by norm_num))
    nonnegOpt_none (nonnegOpt_some (by norm_num))
    nonnegOpt_none (nonnegOpt_some (by norm_num))
    nonnegOpt_none (nonnegOpt_some (by norm_num))
    nonnegOpt_none nonnegOpt_none).2.1

/-- Claim C5: `actualProfit` is the resolved sale price minus `totalCosts`,
`netProfit` is `actualProfit − vat`, `grossProfit` is always exactly
`actualProfit`, and `isFinal` holds exactly when the status is `SOLD`. -/
theorem profit_fields_and_finality (d : Device) :
    (calculateDeviceFinancials d).actualProfit =
      d.salePriceR - (calculateDeviceFinancials d).totalCosts
    ∧ (calculateDeviceFinancials d).netProfit =
        (calculateDeviceFinancials d).actualProfit - (calculateDeviceFinancials d).vat
    ∧ (calculateDeviceFinancials d).grossProfit = (calculateDeviceFinancials d).actualProfit
    ∧ ((calculateDeviceFinancials d).isFinal = true ↔ d.status = "SOLD") := by
  refine ⟨rfl, rfl, rfl, ?_⟩
  simp [calculateDeviceFinancials]

theorem jsOrNum_fillNum (a b : Option ℚ) :
    jsOrNum (fillNum a) (jsOrNum (fillNum b) 0) = jsOrNum a (jsOrNum b 0) := by
  cases a with
  | none => cases b <;> simp [fillNum, jsOrNum]
  | some x => cases b <;> by_cases hx : x = 0 <;> simp [fillNum, jsOrNum, hx]

theorem isDiffTaxR_withExplicitDefaults (d : Device) :
    d.withExplicitDefaults.isDiffTaxR = d.isDiffTaxR := by
  show ((if d.isDiffTax = none ∧ d.is_diff_tax = none then some true
      else d.isDiffTax).or d.is_diff_tax).getD true = (d.isDiffTax.or d.is_diff_tax).getD true
  split_ifs with h
  · rw [h.1, h.2]
    rfl
  · rfl

/-- Claim C6: the calculator is a total function that tolerates every pattern
of absent fields: any device computes exactly as its explicitly defaulted
form, in which each absent monetary field is an explicit `0` and an absent
taxation flag is an explicit `true` (differential); in particular a device
with every monetary field absent yields the all-zero result. -/
theorem calculator_defaults_total (d : Device) (status : String) :
    calculateDeviceFinancials d = calculateDeviceFinancials d.withExplicitDefaults
    ∧ calculateDeviceFinancials { status := status } =
        { totalCosts := 0, taxableMargin := 0, actualProfit := 0, grossProfit := 0,
          vat := 0, netProfit := 0, isFinal := decide (status = "SOLD") } := by
  constructor
  · have h1 : d.withExplicitDefaults.purchasePriceR = d.purchasePriceR := jsOrNum_fillNum _ _
    have h2 : d.withExplicitDefaults.repairCostR = d.repairCostR := jsOrNum_fillNum _ _
    have h3 : d.withExplicitDefaults.shippingBuyR = d.shippingBuyR := jsOrNum_fillNum _ _
    have h4 : d.withExplicitDefaults.shippingSellR = d.shippingSellR := jsOrNum_fillNum _ _
    have h5 : d.withExplicitDefaults.salesFeesR = d.salesFeesR := jsOrNum_fillNum _ _
    have h6 : d.withExplicitDefaults.salePriceR = d.salePriceR := jsOrNum_fillNum _ _
    have h7 := isDiffTaxR_withExplicitDefaults d
    have hst : d.withExplicitDefaults.status = d.status := rfl
    simp only [calculateDeviceFinancials, h1, h2, h3, h4, h5, h6, h7, hst]
  · simp [calculateDeviceFinancials, Device.purchasePriceR, Device.repairCostR,
      Device.shippingBuyR, Device.shippingSellR, Device.salesFeesR, Device.salePriceR,
      Device.isDiffTaxR, jsOrNum, Option.or]

/-- Claim C10: monetary fields are resolved with falsy-or, so an explicit
camelCase `0` is overridden by a non-zero snake_case value and `0` is
indistinguishable from absent; the taxation flag is resolved with nullish
coalescing, so an explicit `isDiffTax = false` wins over a snake_case `true`
(standard taxation applies: a sold device with sale price 119 gets vat 19). -/
theorem falsy_or_vs_nullish :
    (calculateDeviceFinancials deviceZeroCamel).totalCosts = 100
    ∧ (∀ (snake : Option ℚ) (k : ℚ),
        jsOrNum (some 0) (jsOrNum snake k) = jsOrNum none (jsOrNum snake k))
    ∧ (∀ b : Option Bool, ((Option.some false).or b).getD true = false)
    ∧ (calculateDeviceFinancials deviceFlagFalse).vat = 19 := by
  refine ⟨?_, fun snake k => by simp [jsOrNum], fun b => by simp [Option.or], ?_⟩
  · rw [calc_totalCosts]
    simp [deviceZeroCamel, Device.purchasePriceR, Device.repairCostR, Device.shippingBuyR,
      Device.shippingSellR, Device.salesFeesR, jsOrNum]
  · rw [calc_vat]
    simp [deviceFlagFalse, Device.isDiffTaxR, Device.salePriceR, Device.purchasePriceR,
      jsOrNum, Option.or]
    norm_num

/-!
Export accumulation lemmas and the claim C9 theorem.
-/

theorem ExportTotals.add_zero (a : ExportTotals) : a.add ExportTotals.zero = a := by
  simp [ExportTotals.add, ExportTotals.zero]

theorem ExportTotals.add_assoc (a b c : ExportTotals) :
    (a.add b).add c = a.add (b.add c) := by
  simp only [ExportTotals.add, ExportTotals.mk.injEq]
  refine ⟨by ring, by ring, by ring, by ring, by ring, by ring⟩

theorem exportFold_rows (fmt : String → String) (ds : List Device) (acc : ExportTotals) :
    (exportFold fmt ds acc).1 = ds.map (exportRow fmt) := by
  induction ds generalizing acc with
  | nil => rfl
  | cons d rest ih => simp [exportFold, ih]

theorem sumContribs_cons (d : Device) (ds : List Device) :
    sumContribs (d :: ds) = (exportContrib d).add (sumContribs ds) := rfl

theorem exportFold_totals (fmt : String → String) (ds : List Device) (acc : ExportTotals) :
    (exportFold fmt ds acc).2 = acc.add (sumContribs (ds.filter exportGate)) := by
  induction ds generalizing acc with
  | nil => simp [exportFold, sumContribs, ExportTotals.add_zero]
  | cons d rest ih =>
    by_cases hg : exportGate d
    · simp [exportFold, hg, ih, List.filter_cons, sumContribs_cons, ExportTotals.add_assoc]
    · simp [exportFold, hg, ih, List.filter_cons]

/-- Claim C9: in the export, a device contributes to the accumulated totals
exactly when its status is `SOLD` and its (resolved) sale price is strictly
positive, while every fetched device yields one spreadsheet row: on a
non-empty device list the export succeeds with one row per device in order,
totals summed over precisely the gated devices, and profit totals derived
from those accumulated totals. -/
theorem export_totals_gate (fmt : String → String) (ds : List Device) (h : ds ≠ []) :
    (∀ d : Device, exportGate d = true ↔ d.status = "SOLD" ∧ 0 < jsOrNum d.sale_price 0)
    ∧ exportDevicesToExcel fmt ds =
        Except.ok (ds.map (exportRow fmt), sumContribs (ds.filter exportGate),
          derivedOf (sumContribs (ds.filter exportGate))) := by
  constructor
  · intro d
    simp [exportGate]
  · have hlen : ¬ ds.length = 0 := by simpa [List.length_eq_zero] using h
    have h1 := exportFold_rows fmt ds ExportTotals.zero
    have h2 := exportFold_totals fmt ds ExportTotals.zero
    have hz : ExportTotals.zero.add (sumContribs (ds.filter exportGate)) =
        sumContribs (ds.filter exportGate) := by
      simp [ExportTotals.add, ExportTotals.zero]
    rw [exportDevicesToExcel, if_neg hlen]
    rw [show exportFold fmt ds ExportTotals.zero =
      ((exportFold fmt ds ExportTotals.zero).1, (exportFold fmt ds ExportTotals.zero).2) from rfl]
    rw [h1, h2, hz]
    rfl

/-- Witness for the claim C9 theorem on the one-element list `[deviceStock]`. -/
theorem export_totals_gate_witness :
    exportDevicesToExcel id [deviceStock] =
      Except.ok ([deviceStock].map (exportRow id), sumContribs ([deviceStock].filter exportGate),
        derivedOf (sumContribs ([deviceStock].filter exportGate))) :=
  (export_totals_gate id [deviceStock] (by simp)).2

/-!
Pagination lemmas: footer bookkeeping and page monotonicity of the writer
operations.
-/

theorem footerCount_append (p q : List Item) :
    footerCount (p ++ q) = footerCount p + footerCount q := by
  simp [footerCount, List.filter_append]

theorem addFooter_eq (s : WriterState) :
    PdfWriter.addFooter s =
      if s.footerText = "" then s
      else { s with curPage := s.curPage ++ [Item.footer s.footerText] } := by
  rw [PdfWriter.addFooter]
  split <;> rfl

theorem addFooter_y (s : WriterState) : (PdfWriter.addFooter s).y = s.y := by
  rw [addFooter_eq]
  split <;> rfl

theorem addFooter_donePages (s : WriterState) :
    (PdfWriter.addFooter s).donePages = s.donePages := by
  rw [addFooter_eq]
  split <;> rfl

theorem addFooter_footerText (s : WriterState) :
    (PdfWriter.addFooter s).footerText = s.footerText := by
  rw [addFooter_eq]
  split <;> rfl

theorem ensureSpace_pos (n : ℚ) (s : WriterState) (h : PAGE_BOTTOM < s.y + n) :
    PdfWriter.ensureSpace n s =
      { y := 25, curPage := [],
        donePages := s.donePages ++ [(PdfWriter.addFooter s).curPage],
        footerText := s.footerText } := by
  rw [PdfWriter.ensureSpace, if_pos h, addFooter_donePages, addFooter_footerText]

theorem ensureSpace_neg (n : ℚ) (s : WriterState) (h : ¬ PAGE_BOTTOM < s.y + n) :
    PdfWriter.ensureSpace n s = s := by
  rw [PdfWriter.ensureSpace, if_neg h]

theorem ensureSpace_y_cases (n : ℚ) (s : WriterState) :
    (PdfWriter.ensureSpace n s).y + n ≤ PAGE_BOTTOM ∨ (PdfWriter.ensureSpace n s).y = 25 := by
  by_cases h : PAGE_BOTTOM < s.y + n
  · right
    rw [ensureSpace_pos n s h]
  · left
    rw [ensureSpace_neg n s h]
    exact not_lt.mp h

theorem footerCount_single_nonfooter {it : Item} (h : it.isFooter = false) :
    footerCount [it] = 0 := by
  simp [footerCount, h]

theorem footerCount_single_footer (t : String) : footerCount [Item.footer t] = 1 := by
  simp [footerCount, Item.isFooter]

theorem footInv_draw {s : WriterState} {it : Item} (h : it.isFooter = false)
    (hs : FootInv s) : FootInv (PdfWriter.draw it s) := by
  obtain ⟨h1, h2, h3⟩ := hs
  refine ⟨h1, ?_, h3⟩
  show footerCount (s.curPage ++ [it]) = 0
  rw [footerCount_append, h2, footerCount_single_nonfooter h]

theorem footInv_advance {s : WriterState} (a : ℚ) (hs : FootInv s) :
    FootInv (PdfWriter.advance a s) := hs

theorem footInv_ensureSpace {s : WriterState} (n : ℚ) (hs : FootInv s) :
    FootInv (PdfWriter.ensureSpace n s) := by
  by_cases h : PAGE_BOTTOM < s.y + n
  · rw [ensureSpace_pos n s h]
    refine ⟨?_, by simp [footerCount], hs.2.2⟩
    intro p hp
    rcases List.mem_append.mp hp with h' | h'
    · exact hs.1 p h'
    · rw [List.mem_singleton.mp h']
      rw [addFooter_eq, if_neg hs.2.2]
      show footerCount (s.curPage ++ [Item.footer s.footerText]) = 1
      rw [footerCount_append, hs.2.1, footerCount_single_footer]
  · rw [ensureSpace_neg n s h]
    exact hs

theorem footInv_drawRestLines {lineH fontSize : ℚ} {bold : Bool} (xs : List String)
    {s : WriterState} (hs : FootInv s) :
    FootInv (PdfWriter.drawRestLines lineH fontSize bold xs s) := by
  induction xs generalizing s with
  | nil => exact hs
  | cons l rest ih =>
    rw [PdfWriter.drawRestLines]
    apply ih
    split
    · exact footInv_draw rfl (footInv_ensureSpace _ hs)
    · exact footInv_advance _ (footInv_draw rfl (footInv_ensureSpace _ hs))

theorem footInv_labelValueLines (label : String) (lines : List String)
    (opts : PdfWriter.LabelValueOpts) {s : WriterState} (hs : FootInv s) :
    FootInv (PdfWriter.labelValueLines label lines opts s) := by
  cases lines with
  | nil => exact footInv_advance _ (footInv_draw rfl (footInv_ensureSpace _ hs))
  | cons l rest =>
    refine footInv_advance _ (footInv_drawRestLines rest ?_)
    split
    · exact footInv_draw rfl (footInv_draw rfl (footInv_ensureSpace _ hs))
    · exact footInv_advance _ (footInv_draw rfl (footInv_draw rfl (footInv_ensureSpace _ hs)))

theorem footInv_blockLines (xs : List String) {s : WriterState} (hs : FootInv s) :
    FootInv (PdfWriter.blockLines xs s) := by
  induction xs generalizing s with
  | nil => exact hs
  | cons l rest ih =>
    rw [PdfWriter.blockLines]
    exact ih (footInv_advance _ (footInv_draw rfl (footInv_ensureSpace _ hs)))

theorem footInv_labelBlock (label : String) (values : List String) {s : WriterState}
    (hs : FootInv s) : FootInv (PdfWriter.labelBlock label values s) := by
  rw [PdfWriter.labelBlock]
  exact footInv_advance _
    (footInv_blockLines _ (footInv_draw rfl (footInv_ensureSpace _ hs)))

theorem footInv_separator {s : WriterState} (hs : FootInv s) :
    FootInv (PdfWriter.separator s) := by
  rw [PdfWriter.separator]
  exact footInv_advance _ (footInv_draw rfl (footInv_ensureSpace _ hs))

theorem footInv_runOp (wrap : String → List String) (op : Op) {s : WriterState}
    (hs : FootInv s) : FootInv (runOp wrap op s) := by
  cases op with
  | labelValue label value opts => exact footInv_labelValueLines label (wrap value) opts hs
  | labelBlock label values => exact footInv_labelBlock label values hs
  | separator => exact footInv_separator hs
  | advance a => exact footInv_advance a hs
  | ensureSpace n => exact footInv_ensureSpace n hs
  | rawText t x fs b => exact footInv_draw rfl hs
  | rawLine x1 x2 => exact footInv_draw rfl hs

theorem footInv_runOps (wrap : String → List String) (ops : List Op) {s : WriterState}
    (hs : FootInv s) : FootInv (runOps wrap ops s) := by
  induction ops generalizing s with
  | nil => exact hs
  | cons op rest ih => exact ih (footInv_runOp wrap op hs)

theorem footInv_init {f : String} (hf : f ≠ "") :
    FootInv (PdfWriter.setFooter f PdfWriter.new) := by
  refine ⟨?_, ?_, hf⟩ <;> simp [PdfWriter.setFooter, PdfWriter.new, footerCount]

theorem pages_footer_once {s : WriterState} (hs : FootInv s) :
    ∀ p ∈ pages (PdfWriter.addFooter s), footerCount p = 1 := by
  intro p hp
  rw [addFooter_eq, if_neg hs.2.2] at hp
  rcases List.mem_append.mp hp with h' | h'
  · exact hs.1 p h'
  · rw [List.mem_singleton.mp h']
    show footerCount (s.curPage ++ [Item.footer s.footerText]) = 1
    rw [footerCount_append, hs.2.1, footerCount_single_footer]

/-- Claim C2: `ensureSpace(needed)` finishes a page exactly when the cursor
plus `needed` exceeds the bottom boundary 270; on a break the footer is drawn
onto the finished page and the cursor resets to the top margin 25; plain
cursor advances and draws never finish a page (pagination happens only inside
`ensureSpace`); and running any sequence of drawing operations from a fresh
writer with a non-empty footer text, followed by the final `addFooter` at
serialization time, leaves every emitted page with the footer exactly once. -/
theorem pagination_footer_once (s : WriterState) (needed : ℚ) (ops : List Op)
    (wrap : String → List String) (f : String) (hf : f ≠ "") (hsf : s.footerText = f) :
    ((PdfWriter.ensureSpace needed s).donePages.length = s.donePages.length + 1 ↔
      PAGE_BOTTOM < s.y + needed)
    ∧ (PAGE_BOTTOM < s.y + needed →
        (PdfWriter.ensureSpace needed s).y = 25
        ∧ (PdfWriter.ensureSpace needed s).donePages =
            s.donePages ++ [s.curPage ++ [Item.footer f]]
        ∧ (PdfWriter.ensureSpace needed s).curPage = [])
    ∧ (¬ PAGE_BOTTOM < s.y + needed → PdfWriter.ensureSpace needed s = s)
    ∧ (∀ a : ℚ, (PdfWriter.advance a s).donePages = s.donePages)
    ∧ (∀ it : Item, (PdfWriter.draw it s).donePages = s.donePages)
    ∧ (∀ p ∈ pages (PdfWriter.addFooter
          (runOps wrap ops (PdfWriter.setFooter f PdfWriter.new))),
        footerCount p = 1) := by
  have hbreak : PAGE_BOTTOM < s.y + needed →
      (PdfWriter.ensureSpace needed s).y = 25
      ∧ (PdfWriter.ensureSpace needed s).donePages =
          s.donePages ++ [s.curPage ++ [Item.footer f]]
      ∧ (PdfWriter.ensureSpace needed s).curPage = [] := by
    intro h
    rw [ensureSpace_pos needed s h]
    refine ⟨rfl, ?_, rfl⟩
    rw [addFooter_eq, if_neg (hsf ▸ hf), hsf]
  refine ⟨⟨?_, ?_⟩, hbreak, ensureSpace_neg needed s, fun a => rfl, fun it => rfl,
    pages_footer_once (footInv_runOps wrap ops (footInv_init hf))⟩
  · intro h
    by_contra hb
    rw [ensureSpace_neg needed s hb] at h
    omega
  · intro h
    rw [(hbreak h).2.1]
    simp

/-- Witness for the claim C2 theorem: a fresh writer with footer text `a@b`
and a space request of 300 breaks the page, flushing the footer and resetting
the cursor. -/
theorem pagination_footer_once_witness :
    ("a@b" : String) ≠ ""
    ∧ (PdfWriter.ensureSpace 300 (PdfWriter.setFooter "a@b" PdfWriter.new)).y = 25
    ∧ (PdfWriter.ensureSpace 300 (PdfWriter.setFooter "a@b" PdfWriter.new)).donePages =
        (PdfWriter.setFooter "a@b" PdfWriter.new).donePages ++
          [(PdfWriter.setFooter "a@b" PdfWriter.new).curPage ++ [Item.footer "a@b"]]
    ∧ (PdfWriter.ensureSpace 300 (PdfWriter.setFooter "a@b" PdfWriter.new)).curPage = [] :=
  ⟨by decide,
    (pagination_footer_once (PdfWriter.setFooter "a@b" PdfWriter.new) 300 []
      (fun v => [v]) "a@b" (by decide) rfl).2.1
      (by show (270 : ℚ) < 25 + 300; norm_num)⟩

/-!
Page monotonicity: once two items sit on the same page, no later writer
operation separates them (pages only grow or are moved wholesale into the
finished list).
-/

theorem pageMono_refl (s : WriterState) : PageMono s s :=
  fun p hp => ⟨p, hp, fun _ ha => ha⟩

theorem pageMono_trans {a b c : WriterState} (h1 : PageMono a b) (h2 : PageMono b c) :
    PageMono a c := by
  intro p hp
  obtain ⟨q, hq, hpq⟩ := h1 p hp
  obtain ⟨r, hr, hqr⟩ := h2 q hq
  exact ⟨r, hr, fun x hx => hqr (hpq hx)⟩

theorem pageMono_draw (it : Item) (s : WriterState) : PageMono s (PdfWriter.draw it s) := by
  intro p hp
  rcases List.mem_append.mp hp with h | h
  · exact ⟨p, List.mem_append.mpr (Or.inl h), fun _ ha => ha⟩
  · rw [List.mem_singleton.mp h]
    refine ⟨s.curPage ++ [it], ?_, List.subset_append_left _ _⟩
    show s.curPage ++ [it] ∈ pages (PdfWriter.draw it s)
    simp [pages, PdfWriter.draw]

theorem pageMono_advance (a : ℚ) (s : WriterState) : PageMono s (PdfWriter.advance a s) :=
  fun p hp => ⟨p, hp, fun _ ha => ha⟩

theorem pageMono_ensureSpace (n : ℚ) (s : WriterState) :
    PageMono s (PdfWriter.ensureSpace n s) := by
  by_cases h : PAGE_BOTTOM < s.y + n
  · rw [ensureSpace_pos n s h]
    intro p hp
    rcases List.mem_append.mp hp with h' | h'
    · refine ⟨p, ?_, fun _ ha => ha⟩
      show p ∈ (s.donePages ++ [(PdfWriter.addFooter s).curPage]) ++ [[]]
      exact List.mem_append.mpr (Or.inl (List.mem_append.mpr (Or.inl h')))
    · rw [List.mem_singleton.mp h']
      refine ⟨(PdfWriter.addFooter s).curPage, ?_, ?_⟩
      · show _ ∈ (s.donePages ++ [(PdfWriter.addFooter s).curPage]) ++ [[]]
        simp
      · rw [addFooter_eq]
        split
        · exact fun _ ha => ha
        · exact List.subset_append_left _ _
  · rw [ensureSpace_neg n s h]
    exact pageMono_refl s

theorem pageMono_drawRestLines (lineH fontSize : ℚ) (bold : Bool) (xs : List String)
    (s : WriterState) : PageMono s (PdfWriter.drawRestLines lineH fontSize bold xs s) := by
  induction xs generalizing s with
  | nil => exact pageMono_refl s
  | cons l rest ih =>
    rw [PdfWriter.drawRestLines]
    have h1 : PageMono s
        (PdfWriter.draw (Item.text l VALUE_X (PdfWriter.ensureSpace lineH s).y fontSize bold)
          (PdfWriter.ensureSpace lineH s)) :=
      pageMono_trans (pageMono_ensureSpace lineH s) (pageMono_draw _ _)
    have h2 : PageMono
        (PdfWriter.draw (Item.text l VALUE_X (PdfWriter.ensureSpace lineH s).y fontSize bold)
          (PdfWriter.ensureSpace lineH s))
        (if rest.isEmpty then
          PdfWriter.draw (Item.text l VALUE_X (PdfWriter.ensureSpace lineH s).y fontSize bold)
            (PdfWriter.ensureSpace lineH s)
        else
          PdfWriter.advance lineH
            (PdfWriter.draw (Item.text l VALUE_X (PdfWriter.ensureSpace lineH s).y fontSize bold)
              (PdfWriter.ensureSpace lineH s))) := by
      split
      · exact pageMono_refl _
      · exact pageMono_advance _ _
    exact pageMono_trans (pageMono_trans h1 h2) (ih _)

theorem pageMono_blockLines (xs : List String) (s : WriterState) :
    PageMono s (PdfWriter.blockLines xs s) := by
  induction xs generalizing s with
  | nil => exact pageMono_refl s
  | cons l rest ih =>
    rw [PdfWriter.blockLines]
    exact pageMono_trans
      (pageMono_trans (pageMono_trans (pageMono_ensureSpace _ s) (pageMono_draw _ _))
        (pageMono_advance _ _)) (ih _)

/-- Two items drawn consecutively onto the current page stay on a common page
through any page-monotone continuation. -/
theorem draw2_same_page (s1 : WriterState) (L V : Item) (t : WriterState → WriterState)
    (ht : ∀ w, PageMono w (t w)) :
    ∃ q ∈ pages (t (PdfWriter.draw V (PdfWriter.draw L s1))), L ∈ q ∧ V ∈ q := by
  have hmem : (PdfWriter.draw V (PdfWriter.draw L s1)).curPage ∈
      pages (PdfWriter.draw V (PdfWriter.draw L s1)) := by
    simp [pages]
  obtain ⟨q, hq, hsub⟩ := ht (PdfWriter.draw V (PdfWriter.draw L s1)) _ hmem
  refine ⟨q, hq, hsub ?_, hsub ?_⟩
  · show L ∈ (s1.curPage ++ [L]) ++ [V]
    simp
  · show V ∈ (s1.curPage ++ [L]) ++ [V]
    simp

theorem labelValueLines_first_same_page (label v : String) (rest : List String)
    (opts : PdfWriter.LabelValueOpts) (s : WriterState) :
    ∃ y, ∃ q ∈ pages (PdfWriter.labelValueLines label (v :: rest) opts s),
      Item.text label LABEL_X y (jsOrNum opts.labelFontSize 10) false ∈ q
      ∧ Item.text v VALUE_X y (jsOrNum opts.valueFontSize 10) (jsTruthyBool opts.valueBold) ∈ q := by
  refine ⟨(PdfWriter.ensureSpace (min (((v :: rest).length : ℚ) *
    (jsOrNum opts.valueFontSize 10 * (2 / 5))) (jsOrNum opts.valueFontSize 10 * (2 / 5) + 2)) s).y, ?_⟩
  exact draw2_same_page
    (PdfWriter.ensureSpace (min (((v :: rest).length : ℚ) *
      (jsOrNum opts.valueFontSize 10 * (2 / 5))) (jsOrNum opts.valueFontSize 10 * (2 / 5) + 2)) s)
    _ _
    (fun w => PdfWriter.advance (jsOrNum opts.valueFontSize 10 * (2 / 5) + 2)
      (PdfWriter.drawRestLines (jsOrNum opts.valueFontSize 10 * (2 / 5))
        (jsOrNum opts.valueFontSize 10) (jsTruthyBool opts.valueBold) rest
        (if rest.isEmpty then w
         else PdfWriter.advance (jsOrNum opts.valueFontSize 10 * (2 / 5)) w)))
    (fun w => pageMono_trans
      (show PageMono w (if rest.isEmpty then w
          else PdfWriter.advance (jsOrNum opts.valueFontSize 10 * (2 / 5)) w) from by
        split
        · exact pageMono_refl w
        · exact pageMono_advance _ w)
      (pageMono_trans (pageMono_drawRestLines _ _ _ rest _) (pageMono_advance _ _)))

theorem labelBlock_first_same_page (label v : String) (values : List String)
    (s : WriterState) :
    ∃ y, ∃ q ∈ pages (PdfWriter.labelBlock label (v :: values) s),
      Item.text label LABEL_X y 10 false ∈ q ∧ Item.text v VALUE_X y 10 false ∈ q := by
  have h5 : LINE_HEIGHT = (5 : ℚ) := rfl
  have h270 : PAGE_BOTTOM = (270 : ℚ) := rfl
  have hy : ¬ PAGE_BOTTOM <
      (PdfWriter.draw (Item.text label LABEL_X (PdfWriter.ensureSpace (LINE_HEIGHT + 2) s).y 10 false)
        (PdfWriter.ensureSpace (LINE_HEIGHT + 2) s)).y + LINE_HEIGHT := by
    show ¬ PAGE_BOTTOM < (PdfWriter.ensureSpace (LINE_HEIGHT + 2) s).y + LINE_HEIGHT
    rcases ensureSpace_y_cases (LINE_HEIGHT + 2) s with h | h
    · rw [h5, h270] at h ⊢
      intro hc
      linarith
    · rw [h, h5, h270]
      norm_num
  have key : PdfWriter.labelBlock label (v :: values) s =
      PdfWriter.advance 3 (PdfWriter.blockLines values (PdfWriter.advance LINE_HEIGHT
        (PdfWriter.draw (Item.text v VALUE_X (PdfWriter.ensureSpace (LINE_HEIGHT + 2) s).y 10 false)
          (PdfWriter.draw
            (Item.text label LABEL_X (PdfWriter.ensureSpace (LINE_HEIGHT + 2) s).y 10 false)
            (PdfWriter.ensureSpace (LINE_HEIGHT + 2) s))))) := by
    have hnb := ensureSpace_neg LINE_HEIGHT _ hy
    show PdfWriter.advance 3 (PdfWriter.blockLines values (PdfWriter.advance LINE_HEIGHT
        (PdfWriter.draw (Item.text v VALUE_X (PdfWriter.ensureSpace LINE_HEIGHT
            (PdfWriter.draw
              (Item.text label LABEL_X (PdfWriter.ensureSpace (LINE_HEIGHT + 2) s).y 10 false)
              (PdfWriter.ensureSpace (LINE_HEIGHT + 2) s))).y 10 false)
          (PdfWriter.ensureSpace LINE_HEIGHT
            (PdfWriter.draw
              (Item.text label LABEL_X (PdfWriter.ensureSpace (LINE_HEIGHT + 2) s).y 10 false)
              (PdfWriter.ensureSpace (LINE_HEIGHT + 2) s)))))) = _
    rw [hnb]
    rfl
  rw [key]
  refine ⟨(PdfWriter.ensureSpace (LINE_HEIGHT + 2) s).y, ?_⟩
  exact draw2_same_page (PdfWriter.ensureSpace (LINE_HEIGHT + 2) s) _ _
    (fun w => PdfWriter.advance 3 (PdfWriter.blockLines values (PdfWriter.advance LINE_HEIGHT w)))
    (fun w => pageMono_trans (pageMono_advance _ w)
      (pageMono_trans (pageMono_blockLines values _) (pageMono_advance _ _)))

/-- Claim C3: in `labelValue` (for any value string and any wrapping of it)
and in `labelBlock` (for any pre-wrapped line list), the label and the first
rendered value line always land on the same page, at the same cursor height;
only continuation lines can be moved to a later page by a break. -/
theorem label_never_split (wrap : String → List String) (label value v : String)
    (rest : List String) (opts : PdfWriter.LabelValueOpts) (values : List String)
    (s : WriterState) (hw : wrap value = v :: rest) :
    (∃ y, ∃ q ∈ pages (PdfWriter.labelValue wrap label value opts s),
      Item.text label LABEL_X y (jsOrNum opts.labelFontSize 10) false ∈ q
      ∧ Item.text v VALUE_X y (jsOrNum opts.valueFontSize 10) (jsTruthyBool opts.valueBold) ∈ q)
    ∧ (∃ y, ∃ q ∈ pages (PdfWriter.labelBlock label (v :: values) s),
      Item.text label LABEL_X y 10 false ∈ q ∧ Item.text v VALUE_X y 10 false ∈ q) := by
  constructor
  · rw [PdfWriter.labelValue, hw]
    exact labelValueLines_first_same_page label v rest opts s
  · exact labelBlock_first_same_page label v values s

/-- Witness for the claim C3 theorem: a fresh writer, a single-line wrapped
value, and a one-line block. -/
theorem label_never_split_witness :
    (∃ y, ∃ q ∈ pages (PdfWriter.labelValue (fun t => [t]) "Label" "Wert"
        ⟨none, none, none⟩ PdfWriter.new),
      Item.text "Label" LABEL_X y (jsOrNum none 10) false ∈ q
      ∧ Item.text "Wert" VALUE_X y (jsOrNum none 10) (jsTruthyBool none) ∈ q)
    ∧ (∃ y, ∃ q ∈ pages (PdfWriter.labelBlock "Label" ["Wert"] PdfWriter.new),
      Item.text "Label" LABEL_X y 10 false ∈ q ∧ Item.text "Wert" VALUE_X y 10 false ∈ q) :=
  label_never_split (fun t => [t]) "Label" "Wert" "Wert" [] ⟨none, none, none⟩ []
    PdfWriter.new rfl

/-!
Claim theorems for the Eigenbeleg document content (C7) and the logo fault
tolerance (C8).
-/

/-- Claim C7: when the caller supplies no reason — the option absent, or the
route handler receiving a body reason that is empty after trimming and hence
passing none — the `Grund für Eigenbeleg` field carries the default reason
text; and the `Betrag` field carries the purchase price in German two-decimal
format followed by ` €`, e.g. `250,00 €` for a price of 250. -/
theorem betrag_and_default_reason (device : PdfDevice) (cp : CompanyProfile)
    (r dateStr guid : String) (reason : Option String)
    (hr : reason = none ∨ reason = some "") (bodyReason : Option String)
    (hb : jsTrim (jsOrStr bodyReason "") = "") :
    Op.labelValue "Grund für Eigenbeleg" defaultReason ⟨some true, none, none⟩ ∈
        eigenbelegOps device cp ⟨r, reason⟩ dateStr guid
    ∧ Op.labelValue "Betrag" (formatDe2 device.purchase_price ++ " €")
        ⟨some true, some 14, none⟩ ∈ eigenbelegOps device cp ⟨r, reason⟩ dateStr guid
    ∧ routeReason bodyReason = none
    ∧ formatDe2 250 ++ " €" = "250,00 €" := by
  have hreason : jsOrStr reason defaultReason = defaultReason := by
    rcases hr with h | h <;> rw [h] <;> simp [jsOrStr]
  refine ⟨?_, ?_, ?_, rfl⟩
  · simp [eigenbelegOps, hreason]
  · rw [eigenbelegOps]
    simp
  · simp [routeReason, hb]

/-- Witness for the claim C7 theorem: omitted reason and a body reason that is
empty after trimming. -/
theorem betrag_and_default_reason_witness :
    Op.labelValue "Grund für Eigenbeleg" defaultReason ⟨some true, none, none⟩ ∈
        eigenbelegOps pdfDeviceEx companyProfileEx ⟨"Max Mustermann", none⟩ "15.01.2024" "g1"
    ∧ Op.labelValue "Betrag" (formatDe2 pdfDeviceEx.purchase_price ++ " €")
        ⟨some true, some 14, none⟩ ∈
        eigenbelegOps pdfDeviceEx companyProfileEx ⟨"Max Mustermann", none⟩ "15.01.2024" "g1"
    ∧ routeReason (some "   ") = none
    ∧ formatDe2 250 ++ " €" = "250,00 €" :=
  betrag_and_default_reason pdfDeviceEx companyProfileEx "Max Mustermann" "15.01.2024" "g1"
    none (Or.inl rfl) (some "   ") (by decide)

/-- Claim C8: `generateEigenbeleg` always returns a document buffer: whatever
the logo fetch outcome (thrown network error, non-OK response) and whatever
the image decode outcome, the result is `ok`, the drawn document content is
identical across all logo outcomes, failed fetches load no logo, and a decode
failure merely leaves the logo out. -/
theorem logo_failure_resilient (device : PdfDevice) (cp : CompanyProfile)
    (options : EigenbelegOptions) (wrap : String → List String)
    (f f' : FetchResult) (a a' : AddImageResult) (dateStr guid : String) :
    (∃ out, generateEigenbeleg device cp options wrap f a dateStr guid = Except.ok out)
    ∧ ((generateEigenbeleg device cp options wrap f a dateStr guid).toOption.map Prod.fst =
        (generateEigenbeleg device cp options wrap f' a' dateStr guid).toOption.map Prod.fst)
    ∧ loadLogoAsBase64 FetchResult.netError = none
    ∧ loadLogoAsBase64 FetchResult.notOk = none
    ∧ (generateEigenbeleg device cp options wrap f AddImageResult.failed dateStr
        guid).toOption.map Prod.snd = some false := by
  refine ⟨⟨_, rfl⟩, rfl, rfl, rfl, ?_⟩
  show some (if jsTruthyStr cp.logo_url then
      (match loadLogoAsBase64 f with
        | some _ => (match AddImageResult.failed with
            | AddImageResult.ok => true
            | AddImageResult.failed => false)
        | none => false)
      else false) = some false
  cases f <;> split <;> simp [loadLogoAsBase64]
